import Mathlib

/-
  Verification development for the project-workspace-operator.

  The definitions below are a shallow embedding of the operator's Go source:
  * api/v1alpha1 and api/core/v1alpha1: Subject, MemberOverride(s), Project,
    the project admission webhook (ValidateUpdate / ValidateDelete,
    ensureValidRole) and the created-by annotation helpers;
  * internal/controller/config: the shared config store (PWOConfigController)
    with its snapshot fields, its readers and its reconcile loop;
  * internal/controller/core: the CommonReconciler deletion helpers
    (handleRemainingContentBeforeDelete, handleDelete) and the condition
    upsert/removal methods of the tenancy types.

  Cluster I/O (client Get/List/Update, the discovery service and the cluster
  access reconciler) is modelled by explicit oracle parameters holding the
  outcome of each call, so that every function stays executable.
-/

namespace PWO

/-- ASCII lowercase of a character; models the effect of Go case folding on
ASCII letters (all names compared in this repository are ASCII). -/
def asciiLower (c : Char) : Char :=
  if 'A' ≤ c && c ≤ 'Z' then Char.ofNat (c.toNat + 32) else c

/-- Model of Go strings.EqualFold restricted to ASCII data: the strings agree
character-wise up to ASCII case. -/
def eqFold (a b : String) : Bool :=
  a.data.map asciiLower == b.data.map asciiLower

/-- api Subject: kind is "User", "Group" or "ServiceAccount"; ns is the
serviceaccount namespace (Go field Namespace, empty when absent). -/
structure Subject where
  kind : String
  name : String
  ns : String
deriving Repr, DecidableEq

/-- authentication/v1 UserInfo as far as the webhook reads it. -/
structure UserInfo where
  username : String
  groups : List String
deriving Repr, DecidableEq

/-- OverrideResource: an optional narrowing of an override to one tenancy
object, kind is "project" or "workspace" per the CRD enum. -/
structure OverrideResource where
  kind : String
  name : String
deriving Repr, DecidableEq

/-- One entry of the MemberOverrides singleton. -/
structure MemberOverride where
  subject : Subject
  roles : List String
  resources : List OverrideResource
deriving Repr, DecidableEq

/-- The MemberOverrides object (spec.memberOverrides list). -/
structure MemberOverrides where
  memberOverrides : List MemberOverride
deriving Repr, DecidableEq

/-- MemberOverride.Username: canonical username; none for groups
(the Go method returns ("", false) then). -/
def MemberOverride.Username (m : MemberOverride) : Option String :=
  match m.subject.kind with
  | "User" => some m.subject.name
  | "ServiceAccount" =>
      some ("system:serviceaccount:" ++ m.subject.ns ++ ":" ++ m.subject.name)
  | _ => none

/-- MemberOverride.hasUserOrSA. -/
def MemberOverride.hasUserOrSA (m : MemberOverride) (u : UserInfo) : Bool :=
  match m.Username with
  | some n => n == u.username
  | none => false

/-- MemberOverride.hasGroup. -/
def MemberOverride.hasGroup (m : MemberOverride) (u : UserInfo) : Bool :=
  m.subject.kind == "Group" && u.groups.any (fun g => m.subject.name == g)

/-- MemberOverride.hasAdminRole. -/
def MemberOverride.hasAdminRole (m : MemberOverride) : Bool :=
  m.roles.any (fun r => r == "admin")

/-- MemberOverride.hasResource: case-insensitive (strings.EqualFold) match of
kind and name against the entry's resources list. -/
def MemberOverride.hasResource (m : MemberOverride) (resourceName resourceKind : String) : Bool :=
  m.resources.any (fun r => eqFold r.kind resourceKind && eqFold r.name resourceName)

/-- MemberOverrides.HasAdminOverrideForResource: some entry has the admin
role and either applies globally (no resources list) to the user/sa or to one
of the user's groups, or lists a matching resource and matches the user, the
serviceaccount or a group. -/
def MemberOverrides.HasAdminOverrideForResource (m : MemberOverrides) (u : UserInfo)
    (resourceName resourceKind : String) : Bool :=
  m.memberOverrides.any fun o =>
    o.hasAdminRole &&
      ((o.hasUserOrSA u && o.resources.isEmpty) ||
       (o.hasGroup u && o.resources.isEmpty) ||
       (o.hasResource resourceName resourceKind && (o.hasUserOrSA u || o.hasGroup u)))

/-- A project member: subject plus role list ("admin" / "view"). -/
structure ProjectMember where
  subject : Subject
  roles : List String
deriving Repr, DecidableEq

/-- The Project object as far as the webhook reads it: object name, TypeMeta
kind, annotations map and the member list. -/
structure Project where
  name : String
  kind : String
  annotations : List (String × String)
  members : List ProjectMember
deriving Repr, DecidableEq

/-- ProjectMember.Username, same shape as MemberOverride.Username. -/
def ProjectMember.Username (pm : ProjectMember) : Option String :=
  match pm.subject.kind with
  | "User" => some pm.subject.name
  | "ServiceAccount" =>
      some ("system:serviceaccount:" ++ pm.subject.ns ++ ":" ++ pm.subject.name)
  | _ => none

/-- Project.UserInfoRoles: the roles of every member whose canonical username
equals the requester's username, plus those of every Group member whose name
is among the requester's groups. The Go set is modelled as a list; only
membership is ever queried. -/
def Project.UserInfoRoles (p : Project) (u : UserInfo) : List String :=
  (p.members.filter (fun m => m.Username == some u.username)).flatMap (fun m => m.roles) ++
    u.groups.flatMap (fun g =>
      (p.members.filter (fun m => m.subject.kind == "Group" && m.subject.name == g)).flatMap
        (fun m => m.roles))

/-- Project.UserInfoHasRole. -/
def Project.UserInfoHasRole (p : Project) (u : UserInfo) (role : String) : Bool :=
  (p.UserInfoRoles u).contains role

/-- Errors the validating project webhook can return. -/
inductive WebhookErr where
  /-- errCreatedByImmutable -/
  | createdByImmutable
  /-- errRequestingUserNoAccess -/
  | requestingUserNoAccess (username : String)
  /-- an error from reading the MemberOverrides object -/
  | lookupFailed (msg : String)
deriving Repr, DecidableEq

/-- The created-by annotation key, GroupVersion.Group + "/created-by". -/
def CreatedByAnnotationKey : String := "core.openmcp.cloud/created-by"

/-- Go map string lookup with the zero-value "" default. -/
def mapGetD (m : List (String × String)) (k : String) : String :=
  (m.lookup k).getD ""

/-- compareStringMapValue: the values under the key agree in both maps. -/
def compareStringMapValue (a b : List (String × String)) (key : String) : Bool :=
  mapGetD a key == mapGetD b key

/-- verifyCreatedByUnchanged: errCreatedByImmutable when the created-by
annotation differs between old and new object. -/
def verifyCreatedByUnchanged (oldObj newObj : Project) : Option WebhookErr :=
  if compareStringMapValue oldObj.annotations newObj.annotations CreatedByAnnotationKey then
    none
  else
    some .createdByImmutable

/-- The ProjectWebhook receiver: operator identity and the configured
MemberOverrides name (empty disables overrides). -/
structure ProjectWebhook where
  Identity : String
  OverrideName : String
deriving Repr, DecidableEq

/-- ProjectWebhook.ensureValidRole. The client Get of the MemberOverrides
object is modelled by the oracle argument from the override name to a result.
Returns the Go (bool, error) pair. -/
def ProjectWebhook.ensureValidRole (v : ProjectWebhook)
    (getOv : String → Except String MemberOverrides)
    (u : UserInfo) (project : Project) : Bool × Option WebhookErr :=
  if project.UserInfoHasRole u "admin" || u.username == v.Identity then
    (true, none)
  else if v.OverrideName == "" then
    (false, none)
  else
    match getOv v.OverrideName with
    | .error e => (false, some (.lookupFailed e))
    | .ok overrides =>
        if overrides.HasAdminOverrideForResource u project.name project.kind then
          (true, none)
        else
          (false, none)

/-- ProjectWebhook.ValidateDelete: when ensureValidRole reports an invalid
role, the webhook returns whatever error ensureValidRole produced (which is
none when the role check merely failed); otherwise it returns no error. -/
def ProjectWebhook.ValidateDelete (v : ProjectWebhook)
    (getOv : String → Except String MemberOverrides)
    (u : UserInfo) (project : Project) : Option WebhookErr :=
  let r := v.ensureValidRole getOv u project
  if !r.1 then r.2 else none

/-- ProjectWebhook.ValidateUpdate: created-by immutability first, then the
role check on the old object, then on the new object. -/
def ProjectWebhook.ValidateUpdate (v : ProjectWebhook)
    (getOv : String → Except String MemberOverrides)
    (u : UserInfo) (oldObj newObj : Project) : Option WebhookErr :=
  match verifyCreatedByUnchanged oldObj newObj with
  | some e => some e
  | none =>
    let r := v.ensureValidRole getOv u oldObj
    match r.2 with
    | some e => some e
    | none =>
      if !r.1 then
        some (.requestingUserNoAccess u.username)
      else
        let r2 := v.ensureValidRole getOv u newObj
        match r2.2 with
        | some e => some e
        | none =>
          if !r2.1 then some (.requestingUserNoAccess u.username) else none

-- Concrete objects used by the admission-gate theorems below.

/-- A requester who is not a member and not the operator identity. -/
def mallory : UserInfo := { username := "mallory", groups := [] }

/-- The operator's own identity as a requester. -/
def operatorUser : UserInfo := { username := "operator-identity", groups := [] }

/-- A project whose only admin member is alice. -/
def demoProject : Project :=
  { name := "demo"
    kind := "Project"
    annotations := [(CreatedByAnnotationKey, "alice")]
    members := [{ subject := { kind := "User", name := "alice", ns := "" }, roles := ["admin"] }] }

/-- demoProject with a different created-by annotation value. -/
def demoProjectRetagged : Project :=
  { demoProject with annotations := [(CreatedByAnnotationKey, "bob")] }

/-- A webhook configuration with overrides disabled. -/
def demoWebhook : ProjectWebhook := { Identity := "operator-identity", OverrideName := "" }

/-- An oracle that fails every MemberOverrides lookup; used to show that no
lookup happens on the paths under test. -/
def noLookup : String → Except String MemberOverrides :=
  fun n => .error ("unexpected lookup of MemberOverrides " ++ n)

/-- C1: the spec requires ValidateDelete to reject a requester who is neither
an admin member, nor the operator identity, nor covered by an admin override;
the code instead returns the nil error that ensureValidRole paired with its
false verdict, so the deletion is admitted. Evaluated at a concrete failing
input: mallory is no member of demoProject, is not the operator identity,
overrides are disabled, and ValidateDelete returns no error. -/
theorem c1_validate_delete_admits_non_admin :
    demoProject.UserInfoHasRole mallory "admin" = false ∧
    mallory.username ≠ demoWebhook.Identity ∧
    demoWebhook.ValidateDelete noLookup mallory demoProject = none := by
  refine ⟨by decide, by decide, by decide⟩

/-- C3 counterexample: the claim says an update by the operator identity is
validated successfully even when the created-by annotation changed; in the
code verifyCreatedByUnchanged runs before the identity exemption, so the
operator's own update is rejected with errCreatedByImmutable. -/
theorem c3_counterexample_identity_not_exempt_from_created_by :
    operatorUser.username = demoWebhook.Identity ∧
    demoWebhook.ValidateUpdate noLookup operatorUser demoProject demoProjectRetagged =
      some .createdByImmutable := by
  refine ⟨by decide, by decide⟩

/-- C3 amended: an update whose requester is the operator identity is
validated successfully whenever the created-by annotation is unchanged;
the identity exemption covers the role checks but not created-by
immutability. -/
theorem c3_identity_update_succeeds_when_created_by_unchanged
    (v : ProjectWebhook) (getOv : String → Except String MemberOverrides)
    (u : UserInfo) (oldObj newObj : Project)
    (hid : u.username = v.Identity)
    (hcb : compareStringMapValue oldObj.annotations newObj.annotations CreatedByAnnotationKey = true) :
    v.ValidateUpdate getOv u oldObj newObj = none := by
  unfold ProjectWebhook.ValidateUpdate verifyCreatedByUnchanged ProjectWebhook.ensureValidRole
  simp [hcb, hid]

/-- C3 amended, witness: the operator identity may change the member list as
long as created-by is unchanged. -/
theorem c3_identity_update_succeeds_witness :
    demoWebhook.ValidateUpdate noLookup operatorUser demoProject demoProject = none :=
  c3_identity_update_succeeds_when_created_by_unchanged demoWebhook noLookup operatorUser
    demoProject demoProject (by decide) (by decide)

/-- Strings that fold equally induce the same eqFold comparisons. -/
theorem eqFold_congr_right {a b : String} (h : eqFold a b = true) (c : String) :
    eqFold c a = eqFold c b := by
  unfold eqFold at *
  have h2 : a.data.map asciiLower = b.data.map asciiLower := by
    simpa using h
  rw [h2]

/-- hasResource only looks at the requested name and kind up to ASCII case. -/
theorem hasResource_respects_fold (m : MemberOverride) {name kind name2 kind2 : String}
    (hn : eqFold name name2 = true) (hk : eqFold kind kind2 = true) :
    m.hasResource name kind = m.hasResource name2 kind2 := by
  unfold MemberOverride.hasResource
  congr 1
  funext r
  rw [eqFold_congr_right hn r.name, eqFold_congr_right hk r.kind]

/-- C9: override resource matching is case-insensitive — the admin-override
decision is invariant under replacing the requested resource name and kind by
ASCII-case-equal variants, because hasResource compares both fields with
strings.EqualFold. -/
theorem c9_admin_override_case_insensitive
    (m : MemberOverrides) (u : UserInfo) (name kind name2 kind2 : String)
    (hn : eqFold name name2 = true) (hk : eqFold kind kind2 = true) :
    m.HasAdminOverrideForResource u name kind = m.HasAdminOverrideForResource u name2 kind2 := by
  unfold MemberOverrides.HasAdminOverrideForResource
  congr 1
  funext o
  rw [hasResource_respects_fold o hn hk]

/-- An override listing resource name "MyProject" for user carol. -/
def overrideMyProject : MemberOverrides :=
  { memberOverrides :=
      [{ subject := { kind := "User", name := "carol", ns := "" }
         roles := ["admin"]
         resources := [{ kind := "project", name := "MyProject" }] }] }

/-- The requester carol. -/
def carol : UserInfo := { username := "carol", groups := [] }

/-- C9 witness: an override scoped to name "MyProject" also applies to an
object named "myproject". -/
theorem c9_admin_override_case_insensitive_witness :
    eqFold "myproject" "MyProject" = true ∧
    overrideMyProject.HasAdminOverrideForResource carol "myproject" "project" = true := by
  constructor
  · decide
  · rw [c9_admin_override_case_insensitive overrideMyProject carol
      "myproject" "project" "MyProject" "project" (by decide) (by decide)]
    decide

/-- C10: with an empty configured member-overrides name, ensureValidRole
grants admin access exactly to admin members and the operator identity,
returns no error, and never consults the MemberOverrides lookup (the result
is the same for every lookup oracle). -/
theorem c10_empty_override_name_no_lookup
    (v : ProjectWebhook) (g g2 : String → Except String MemberOverrides)
    (u : UserInfo) (p : Project) (h : v.OverrideName = "") :
    v.ensureValidRole g u p = (p.UserInfoHasRole u "admin" || u.username == v.Identity, none) ∧
    v.ensureValidRole g u p = v.ensureValidRole g2 u p := by
  unfold ProjectWebhook.ensureValidRole
  rw [h]
  by_cases hc : (p.UserInfoHasRole u "admin" || u.username == v.Identity) = true
  · simp [hc]
  · simp [hc]

/-- C10 witness: overrides disabled, mallory is denied with no error, and the
failing lookup oracle is never consulted. -/
theorem c10_empty_override_name_no_lookup_witness :
    demoWebhook.ensureValidRole noLookup mallory demoProject =
      (demoProject.UserInfoHasRole mallory "admin" || mallory.username == demoWebhook.Identity,
        none) ∧
    demoWebhook.ensureValidRole noLookup mallory demoProject =
      demoWebhook.ensureValidRole (fun _ => .ok { memberOverrides := [] }) mallory demoProject :=
  c10_empty_override_name_no_lookup demoWebhook noLookup
    (fun _ => .ok { memberOverrides := [] }) mallory demoProject (by decide)

-- Shared config store (internal/controller/config) --

/-- metav1.GroupVersionKind. -/
structure GroupVersionKind where
  group : String
  version : String
  kind : String
deriving Repr, DecidableEq

/-- DeletionBlockingResource: a GVK plus the source of the entry. -/
structure DeletionBlockingResource where
  gvk : GroupVersionKind
  source : String
deriving Repr, DecidableEq

/-- APIGroupsWithResources grouping. -/
structure APIGroupsWithResources where
  apiGroups : List String
  resources : List String
deriving Repr, DecidableEq

/-- rbacv1.PolicyRule. -/
structure PolicyRule where
  apiGroups : List String
  resources : List String
  resourceNames : List String
  nonResourceURLs : List String
  verbs : List String
deriving Repr, DecidableEq

/-- Modelled from the spec: the source tag constants (SourceBuiltin and the
config/service-provider sources) are declared in the api package, which is
not part of src/; they are opaque strings used for logging and their exact
values influence no claim. -/
def SourceBuiltin : String := "builtin"

/-- Modelled from the spec: source tag for entries from the configuration
object. -/
def SourceProjectWorkspaceConfig : String := "config"

/-- Modelled from the spec: source tag "ServiceProvider[name]" for entries a
service provider advertises. -/
def sourceServiceProvider (name : String) : String :=
  "serviceprovider[" ++ name ++ "]"

/-- pwov1alpha1.GroupVersion.String(). -/
def pwoGroupVersionString : String := "core.openmcp.cloud/v1alpha1"

/-- openmcpcorev2alpha1.GroupVersion.String() (external collaborator API). -/
def mcpGroupVersionString : String := "core.openmcp.cloud/v2alpha1"

/-- Builtin blocking resource for projects: the Workspace kind. -/
def BuiltinResourcesBlockingProjectDeletion : List DeletionBlockingResource :=
  [{ gvk := { group := "core.openmcp.cloud", version := "v1alpha1", kind := "Workspace" }
     source := SourceBuiltin }]

/-- Builtin blocking resource for workspaces: the ManagedControlPlaneV2 kind. -/
def BuiltinResourcesBlockingWorkspaceDeletion : List DeletionBlockingResource :=
  [{ gvk := { group := "core.openmcp.cloud", version := "v2alpha1", kind := "ManagedControlPlaneV2" }
     source := SourceBuiltin }]

/-- Builtin permissible project resources: workspaces. -/
def BuiltinPermissibleProjectResources : List APIGroupsWithResources :=
  [{ apiGroups := [pwoGroupVersionString], resources := ["workspaces"] }]

/-- Builtin permissible workspace resources: managedcontrolplanev2s. -/
def BuiltinPermissibleWorkspaceResources : List APIGroupsWithResources :=
  [{ apiGroups := [mcpGroupVersionString], resources := ["managedcontrolplanev2s"] }]

/-- The lock-guarded snapshot fields of PWOConfigController. The dynamic
cluster handle is modelled as an opaque Nat. -/
structure StoreState where
  resourcesBlockingProjectDeletion : List DeletionBlockingResource
  resourcesBlockingWorkspaceDeletion : List DeletionBlockingResource
  permissibleProjectResources : List APIGroupsWithResources
  permissibleWorkspaceResources : List APIGroupsWithResources
  projectPermissionsFromConfig : List (String × List PolicyRule)
  workspacePermissionsFromConfig : List (String × List PolicyRule)
  onboardingClusterAccessDynamic : Option Nat
  missingConfig : Bool
deriving Repr, DecidableEq

/-- shared.go AdminRole. -/
def AdminRole : String := "admin"

/-- shared.go ViewerRole. -/
def ViewerRole : String := "viewer"

/-- ProjectMemberRoleToRoleID: member role enum value to role identifier. -/
def ProjectMemberRoleToRoleID (role : String) : String :=
  if role == "admin" then AdminRole
  else if role == "view" then ViewerRole
  else ""

/-- WorkspaceMemberRoleToRoleID, identical switch. -/
def WorkspaceMemberRoleToRoleID (role : String) : String :=
  if role == "admin" then AdminRole
  else if role == "view" then ViewerRole
  else ""

/-- Go map read m[roleID] with nil (empty) default, for the per-role
extra-rules maps. -/
def rulesFromConfig (m : List (String × List PolicyRule)) (roleID : String) : List PolicyRule :=
  (m.lookup roleID).getD []

/-- The rule the role expansion builds for one resource grouping. -/
def ruleForGrouping (verbs : List String) (agr : APIGroupsWithResources) : PolicyRule :=
  { apiGroups := agr.apiGroups
    resources := agr.resources
    resourceNames := []
    nonResourceURLs := []
    verbs := verbs }

/-- permissionsForRoleHelper: one rule per grouping, verbs [*] for the admin
role id and [get,list,watch] for the viewer role id; unknown ids error. -/
def permissionsForRoleHelper (roleID : String)
    (permissibleResources : List APIGroupsWithResources) : Except String (List PolicyRule) :=
  if roleID == AdminRole then
    .ok (permissibleResources.map (ruleForGrouping ["*"]))
  else if roleID == ViewerRole then
    .ok (permissibleResources.map (ruleForGrouping ["get", "list", "watch"]))
  else
    .error ("unknown role ID: " ++ roleID)

/-- PWOConfigController.ResourcesBlockingProjectDeletion. -/
def ResourcesBlockingProjectDeletion (s : StoreState) :
    Except String (List DeletionBlockingResource) :=
  if s.missingConfig then .error "ProjectWorkspaceConfig is missing"
  else .ok (BuiltinResourcesBlockingProjectDeletion ++ s.resourcesBlockingProjectDeletion)

/-- PWOConfigController.ResourcesBlockingWorkspaceDeletion. -/
def ResourcesBlockingWorkspaceDeletion (s : StoreState) :
    Except String (List DeletionBlockingResource) :=
  if s.missingConfig then .error "ProjectWorkspaceConfig is missing"
  else .ok (BuiltinResourcesBlockingWorkspaceDeletion ++ s.resourcesBlockingWorkspaceDeletion)

/-- PWOConfigController.ProjectPermissionsForRole. -/
def ProjectPermissionsForRole (s : StoreState) (roleID : String) :
    Except String (List PolicyRule) :=
  if s.missingConfig then .error "ProjectWorkspaceConfig is missing"
  else
    match permissionsForRoleHelper roleID
        (BuiltinPermissibleProjectResources ++ s.permissibleProjectResources) with
    | .error e => .error e
    | .ok tmp => .ok (tmp ++ rulesFromConfig s.projectPermissionsFromConfig roleID)

/-- PWOConfigController.WorkspacePermissionsForRole. -/
def WorkspacePermissionsForRole (s : StoreState) (roleID : String) :
    Except String (List PolicyRule) :=
  if s.missingConfig then .error "ProjectWorkspaceConfig is missing"
  else
    match permissionsForRoleHelper roleID
        (BuiltinPermissibleWorkspaceResources ++ s.permissibleWorkspaceResources) with
    | .error e => .error e
    | .ok tmp => .ok (tmp ++ rulesFromConfig s.workspacePermissionsFromConfig roleID)

-- Config reconcile (PWOConfigController.reconcile) --

/-- The ProjectWorkspaceConfig object as the reconcile reads it. The
additional-permissions maps are keyed by the member role enum values
("admin" / "view"). -/
structure ProjectWorkspaceConfig where
  deletionTimestampZero : Bool
  projectResourcesBlockingDeletion : List GroupVersionKind
  projectAdditionalPermissions : List (String × List PolicyRule)
  workspaceResourcesBlockingDeletion : List GroupVersionKind
  workspaceAdditionalPermissions : List (String × List PolicyRule)
  memberOverridesName : String
  webhookDisabled : Bool
deriving Repr, DecidableEq

/-- A ServiceProvider with the GVKs advertised in its status. -/
structure ServiceProvider where
  name : String
  statusResources : List GroupVersionKind
deriving Repr, DecidableEq

/-- reconcile.Result. -/
structure ReconcileResult where
  requeue : Bool := false
  requeueAfter : Nat := 0
deriving Repr, DecidableEq

/-- Outcome of the client Get of the configuration object. -/
inductive GetConfigResult where
  | notFound
  | getFailed (msg : String)
  | found (cfg : ProjectWorkspaceConfig)
deriving Repr, DecidableEq

/-- Oracle bundle for one run of the config reconcile: the request name, the
results of the cluster reads, the discovery capability and the cluster access
reconciler's answers. -/
structure ConfigReconcileEnv where
  reqName : String
  providerName : String
  getConfig : GetConfigResult
  staticAccessAvailable : Bool
  listServiceProviders : Except String (List ServiceProvider)
  discover : GroupVersionKind → Except String String
  carReconcileDelete : ReconcileResult × Option String
  carUpdateErr : Option String
  carReconcile : ReconcileResult × Option String
  carAccess : Except String Nat

/-- Go map assignment m[k] = v on an association list. -/
def assocInsert (m : List (String × List PolicyRule)) (k : String) (v : List PolicyRule) :
    List (String × List PolicyRule) :=
  match m with
  | [] => [(k, v)]
  | (k2, v2) :: rest => if k2 == k then (k, v) :: rest else (k2, v2) :: assocInsert rest k v

/-- Translation of spec.project.additionalPermissions into the role-id keyed
map, rule lists passed through unchanged. -/
def translateProjectAdditionalPermissions (perms : List (String × List PolicyRule)) :
    List (String × List PolicyRule) :=
  perms.foldl (fun acc e => assocInsert acc (ProjectMemberRoleToRoleID e.1) e.2) []

/-- Translation of spec.workspace.additionalPermissions. -/
def translateWorkspaceAdditionalPermissions (perms : List (String × List PolicyRule)) :
    List (String × List PolicyRule) :=
  perms.foldl (fun acc e => assocInsert acc (WorkspaceMemberRoleToRoleID e.1) e.2) []

/-- Set equality of apiGroups lists, as sets.New(...).Equal. -/
def sameStringSet (a b : List String) : Bool :=
  a.all (fun x => b.contains x) && b.all (fun x => a.contains x)

/-- Union of resources preserving order of the existing list and skipping
duplicates (the uniqueness set of Append). -/
def mergeResources (existing newRes : List String) : List String :=
  newRes.foldl (fun acc r => if acc.contains r then acc else acc ++ [r]) existing

/-- One step of APIGroupsWithResourcesList.Append: coalesce into the first
entry with set-equal apiGroups, else append at the end. -/
def agrAppendOne : List APIGroupsWithResources → APIGroupsWithResources →
    List APIGroupsWithResources
  | [], e => [e]
  | x :: rest, e =>
      if sameStringSet x.apiGroups e.apiGroups then
        { x with resources := mergeResources x.resources e.resources } :: rest
      else
        x :: agrAppendOne rest e

/-- APIGroupsWithResourcesList.Append. -/
def agrAppend (l : List APIGroupsWithResources) (elems : List APIGroupsWithResources) :
    List APIGroupsWithResources :=
  elems.foldl agrAppendOne l

/-- The blocking-resource entries derived from the configuration's project
section (source Config). -/
def blockingFromConfigProject (cfg : ProjectWorkspaceConfig) : List DeletionBlockingResource :=
  cfg.projectResourcesBlockingDeletion.map
    (fun gvk => { gvk := gvk, source := SourceProjectWorkspaceConfig })

/-- The blocking-resource entries derived from the configuration's workspace
section. -/
def blockingFromConfigWorkspace (cfg : ProjectWorkspaceConfig) : List DeletionBlockingResource :=
  cfg.workspaceResourcesBlockingDeletion.map
    (fun gvk => { gvk := gvk, source := SourceProjectWorkspaceConfig })

/-- The inner loop over one provider's advertised GVKs: append to the
workspace blocking list tagged with the provider source, discover the plural
resource name and coalesce the grouping into the permissible list. -/
def processProviderGVKs (discover : GroupVersionKind → Except String String)
    (spName : String) (gvks : List GroupVersionKind)
    (acc : List DeletionBlockingResource × List APIGroupsWithResources) :
    Except String (List DeletionBlockingResource × List APIGroupsWithResources) :=
  match gvks with
  | [] => .ok acc
  | gvk :: rest =>
      let blocking := acc.1 ++ [{ gvk := gvk, source := sourceServiceProvider spName }]
      match discover gvk with
      | .error e => .error e
      | .ok resourceName =>
          processProviderGVKs discover spName rest
            (blocking, agrAppend acc.2 [{ apiGroups := [gvk.group], resources := [resourceName] }])

/-- The loop over all ServiceProviders. -/
def processServiceProviders (discover : GroupVersionKind → Except String String)
    (sps : List ServiceProvider)
    (acc : List DeletionBlockingResource × List APIGroupsWithResources) :
    Except String (List DeletionBlockingResource × List APIGroupsWithResources) :=
  match sps with
  | [] => .ok acc
  | sp :: rest =>
      match processProviderGVKs discover sp.name sp.statusResources acc with
      | .error e => .error e
      | .ok acc2 => processServiceProviders discover rest acc2

/-- The grant computation: for every blocking resource discover the plural
name and coalesce (group, [name, name/status]) into the permission groups. -/
def computePermissionGroups (discover : GroupVersionKind → Except String String)
    (resources : List DeletionBlockingResource) (acc : List APIGroupsWithResources) :
    Except String (List APIGroupsWithResources) :=
  match resources with
  | [] => .ok acc
  | res :: rest =>
      match discover res.gvk with
      | .error e => .error e
      | .ok resourceName =>
          computePermissionGroups discover rest
            (agrAppend acc
              [{ apiGroups := [res.gvk.group]
                 resources := [resourceName, resourceName ++ "/status"] }])

/-- The reset closure of reconcile: clear every snapshot field and flag the
config as missing (the dynamic handle is left as is; the access request is
deleted via the access reconciler). -/
def resetState (s : StoreState) : StoreState :=
  { s with
    resourcesBlockingProjectDeletion := []
    resourcesBlockingWorkspaceDeletion := []
    permissibleProjectResources := []
    permissibleWorkspaceResources := []
    projectPermissionsFromConfig := []
    workspacePermissionsFromConfig := []
    missingConfig := true }

/-- PWOConfigController.reconcile as a transition on the snapshot state,
returning the new state, the reconcile result and the error. -/
def reconcile (s : StoreState) (env : ConfigReconcileEnv) :
    StoreState × ReconcileResult × Option String :=
  if env.reqName != env.providerName then (s, {}, none)
  else
    match env.getConfig with
    | .getFailed e => (s, {}, some ("failed to fetch ProjectWorkspaceConfig: " ++ e))
    | .notFound => (resetState s, {}, some "failed to fetch ProjectWorkspaceConfig: not found")
    | .found cfg =>
      if !cfg.deletionTimestampZero then
        (resetState s, env.carReconcileDelete.1, env.carReconcileDelete.2)
      else
        let s1 := { s with missingConfig := false }
        if !env.staticAccessAvailable then
          (s1, {}, some "static onboarding cluster access is not available")
        else
          match env.listServiceProviders with
          | .error e => (s1, {}, some ("failed to list ServiceProviders: " ++ e))
          | .ok sps =>
            match processServiceProviders env.discover sps (blockingFromConfigWorkspace cfg, []) with
            | .error e => (s1, {}, some e)
            | .ok (newRBWD, newPermWS) =>
              let s2 := { s1 with
                resourcesBlockingProjectDeletion := blockingFromConfigProject cfg
                resourcesBlockingWorkspaceDeletion := newRBWD
                permissibleProjectResources := []
                permissibleWorkspaceResources := newPermWS
                projectPermissionsFromConfig :=
                  translateProjectAdditionalPermissions cfg.projectAdditionalPermissions
                workspacePermissionsFromConfig :=
                  translateWorkspaceAdditionalPermissions cfg.workspaceAdditionalPermissions }
              match computePermissionGroups env.discover
                  (s2.resourcesBlockingProjectDeletion ++ s2.resourcesBlockingWorkspaceDeletion) [] with
              | .error e => (s2, {}, some e)
              | .ok _permissionGroups =>
                match env.carUpdateErr with
                | some e =>
                    (s2, {}, some ("failed to update AccessRequest for onboarding cluster: " ++ e))
                | none =>
                  match env.carReconcile with
                  | (rr, some e) =>
                      (s2, rr,
                        some ("failed to reconcile cluster access to the onboarding cluster: " ++ e))
                  | (rr, none) =>
                    if rr.requeueAfter > 0 then (s2, rr, none)
                    else
                      match env.carAccess with
                      | .error e =>
                          (s2, rr, some ("failed to get dynamic onboarding cluster access: " ++ e))
                      | .ok handle =>
                          ({ s2 with onboardingClusterAccessDynamic := some handle }, {}, none)

/-- Success test for Except results. -/
def exceptOk {α : Type} : Except String α → Bool
  | .ok _ => true
  | .error _ => false

/-- permissionsForRoleHelper at the admin role id. -/
theorem permissionsForRoleHelper_admin (perm : List APIGroupsWithResources) :
    permissionsForRoleHelper AdminRole perm = .ok (perm.map (ruleForGrouping ["*"])) := by
  unfold permissionsForRoleHelper
  simp

/-- permissionsForRoleHelper at the viewer role id. -/
theorem permissionsForRoleHelper_viewer (perm : List APIGroupsWithResources) :
    permissionsForRoleHelper ViewerRole perm =
      .ok (perm.map (ruleForGrouping ["get", "list", "watch"])) := by
  unfold permissionsForRoleHelper
  have h1 : (ViewerRole == AdminRole) = false := by decide
  have h2 : (ViewerRole == ViewerRole) = true := by decide
  rw [h1, h2]
  simp

/-- permissionsForRoleHelper rejects every other role id. -/
theorem permissionsForRoleHelper_unknown (r : String) (perm : List APIGroupsWithResources)
    (ha : r ≠ AdminRole) (hv : r ≠ ViewerRole) :
    permissionsForRoleHelper r perm = .error ("unknown role ID: " ++ r) := by
  unfold permissionsForRoleHelper
  rw [beq_eq_false_iff_ne.mpr ha, beq_eq_false_iff_ne.mpr hv]
  simp

/-- C4: with the configuration present, the project blocking list is exactly
the builtin Workspace entry followed by the runtime additions, the workspace
blocking list is exactly the builtin ManagedControlPlaneV2 entry followed by
the runtime additions, and every successful ProjectPermissionsForRole answer
contains a rule for the builtin permissible project resource (workspaces):
runtime additions append behind the builtins and never replace them. -/
theorem c4_builtins_always_present (s : StoreState) (h : s.missingConfig = false) :
    ResourcesBlockingProjectDeletion s =
      .ok (BuiltinResourcesBlockingProjectDeletion ++ s.resourcesBlockingProjectDeletion) ∧
    ResourcesBlockingWorkspaceDeletion s =
      .ok (BuiltinResourcesBlockingWorkspaceDeletion ++ s.resourcesBlockingWorkspaceDeletion) ∧
    ∀ roleID rules, ProjectPermissionsForRole s roleID = .ok rules →
      ∃ verbs, ruleForGrouping verbs
        { apiGroups := [pwoGroupVersionString], resources := ["workspaces"] } ∈ rules := by
  refine ⟨?_, ?_, ?_⟩
  · unfold ResourcesBlockingProjectDeletion
    rw [h]
    rfl
  · unfold ResourcesBlockingWorkspaceDeletion
    rw [h]
    rfl
  · intro roleID rules hok
    unfold ProjectPermissionsForRole at hok
    rw [h] at hok
    simp only [Bool.false_eq_true, if_false] at hok
    by_cases ha : roleID = AdminRole
    · subst ha
      rw [permissionsForRoleHelper_admin] at hok
      simp only [Except.ok.injEq] at hok
      refine ⟨["*"], ?_⟩
      rw [← hok]
      apply List.mem_append_left
      rw [List.map_append]
      apply List.mem_append_left
      simp [BuiltinPermissibleProjectResources]
    · by_cases hv : roleID = ViewerRole
      · subst hv
        rw [permissionsForRoleHelper_viewer] at hok
        simp only [Except.ok.injEq] at hok
        refine ⟨["get", "list", "watch"], ?_⟩
        rw [← hok]
        apply List.mem_append_left
        rw [List.map_append]
        apply List.mem_append_left
        simp [BuiltinPermissibleProjectResources]
      · rw [permissionsForRoleHelper_unknown roleID _ ha hv] at hok
        cases hok

/-- C4 witness: the empty post-config store. -/
def emptyStore : StoreState :=
  { resourcesBlockingProjectDeletion := []
    resourcesBlockingWorkspaceDeletion := []
    permissibleProjectResources := []
    permissibleWorkspaceResources := []
    projectPermissionsFromConfig := []
    workspacePermissionsFromConfig := []
    onboardingClusterAccessDynamic := none
    missingConfig := false }

/-- C4 witness: the builtin entries lead both blocking lists of the empty
store and the admin answer contains the workspaces rule. -/
theorem c4_builtins_always_present_witness :
    ResourcesBlockingProjectDeletion emptyStore =
      .ok (BuiltinResourcesBlockingProjectDeletion ++ emptyStore.resourcesBlockingProjectDeletion) ∧
    ∃ verbs, ruleForGrouping verbs
      { apiGroups := [pwoGroupVersionString], resources := ["workspaces"] } ∈
        [ruleForGrouping ["*"] { apiGroups := [pwoGroupVersionString], resources := ["workspaces"] }] := by
  have h := c4_builtins_always_present emptyStore (by decide)
  refine ⟨h.1, ?_⟩
  have h2 := h.2.2 AdminRole
    [ruleForGrouping ["*"] { apiGroups := [pwoGroupVersionString], resources := ["workspaces"] }]
    (by rfl)
  exact h2

/-- C8 counterexample: the claim names {admin, view} as the succeeding role
identifiers, but the store's viewer role identifier is "viewer": with the
configuration present, the identifier "view" is rejected as unknown. -/
theorem c8_counterexample_view_is_unknown_role_id :
    emptyStore.missingConfig = false ∧
    exceptOk (ProjectPermissionsForRole emptyStore "view") = false ∧
    exceptOk (WorkspacePermissionsForRole emptyStore "view") = false ∧
    exceptOk (ProjectPermissionsForRole emptyStore "viewer") = true := by
  refine ⟨by decide, by decide, by decide, by decide⟩

/-- C8 amended: with the configuration present, both permission readers
succeed exactly for the role identifiers "admin" (AdminRole) and "viewer"
(ViewerRole) and fail for every other identifier — never an empty success. -/
theorem c8_unknown_role_ids_fail (s : StoreState) (h : s.missingConfig = false) (r : String)
    (ha : r ≠ AdminRole) (hv : r ≠ ViewerRole) :
    exceptOk (ProjectPermissionsForRole s r) = false ∧
    exceptOk (WorkspacePermissionsForRole s r) = false ∧
    exceptOk (ProjectPermissionsForRole s AdminRole) = true ∧
    exceptOk (ProjectPermissionsForRole s ViewerRole) = true ∧
    exceptOk (WorkspacePermissionsForRole s AdminRole) = true ∧
    exceptOk (WorkspacePermissionsForRole s ViewerRole) = true := by
  unfold ProjectPermissionsForRole WorkspacePermissionsForRole
  rw [h]
  rw [permissionsForRoleHelper_unknown r _ ha hv]
  rw [permissionsForRoleHelper_unknown r _ ha hv]
  rw [permissionsForRoleHelper_admin, permissionsForRoleHelper_viewer]
  rw [permissionsForRoleHelper_admin, permissionsForRoleHelper_viewer]
  simp [exceptOk]

/-- C8 amended witness: at the empty store, "view" and "madeup" fail while
the two genuine identifiers succeed. -/
theorem c8_unknown_role_ids_fail_witness :
    exceptOk (ProjectPermissionsForRole emptyStore "view") = false ∧
    exceptOk (WorkspacePermissionsForRole emptyStore "view") = false ∧
    exceptOk (ProjectPermissionsForRole emptyStore AdminRole) = true ∧
    exceptOk (ProjectPermissionsForRole emptyStore ViewerRole) = true ∧
    exceptOk (WorkspacePermissionsForRole emptyStore AdminRole) = true ∧
    exceptOk (WorkspacePermissionsForRole emptyStore ViewerRole) = true :=
  c8_unknown_role_ids_fail emptyStore (by decide) "view" (by decide) (by decide)

/-- The snapshot that reconcile installs before submitting the permission
grant: all six guarded collections replaced at once, missingConfig cleared,
dynamic handle untouched. -/
def snapshotState (s : StoreState) (cfg : ProjectWorkspaceConfig)
    (newRBWD : List DeletionBlockingResource) (newPermWS : List APIGroupsWithResources) :
    StoreState :=
  { s with
    missingConfig := false
    resourcesBlockingProjectDeletion := blockingFromConfigProject cfg
    resourcesBlockingWorkspaceDeletion := newRBWD
    permissibleProjectResources := []
    permissibleWorkspaceResources := newPermWS
    projectPermissionsFromConfig :=
      translateProjectAdditionalPermissions cfg.projectAdditionalPermissions
    workspacePermissionsFromConfig :=
      translateWorkspaceAdditionalPermissions cfg.workspaceAdditionalPermissions }

/-- When the config is present, provider processing and discovery succeed,
the grant update is accepted but the access reconciler asks for a requeue,
reconcile returns that requeue with no error — and the state it leaves
behind is the freshly installed snapshot. -/
theorem reconcile_requeue_eq (s : StoreState) (env : ConfigReconcileEnv)
    (cfg : ProjectWorkspaceConfig) (sps : List ServiceProvider)
    (newRBWD : List DeletionBlockingResource) (newPermWS pg : List APIGroupsWithResources)
    (rr : ReconcileResult)
    (hreq : env.reqName = env.providerName)
    (hget : env.getConfig = .found cfg)
    (hdel : cfg.deletionTimestampZero = true)
    (hstatic : env.staticAccessAvailable = true)
    (hlist : env.listServiceProviders = .ok sps)
    (hproc : processServiceProviders env.discover sps (blockingFromConfigWorkspace cfg, []) =
      .ok (newRBWD, newPermWS))
    (hpg : computePermissionGroups env.discover
      (blockingFromConfigProject cfg ++ newRBWD) [] = .ok pg)
    (hupd : env.carUpdateErr = none)
    (hcar : env.carReconcile = (rr, none))
    (hrq : 0 < rr.requeueAfter) :
    reconcile s env = (snapshotState s cfg newRBWD newPermWS, rr, none) := by
  obtain ⟨rq, pn, gc, sa, ls, disc, crd, cu, cr, ca⟩ := env
  simp only at hreq hget hstatic hlist hupd hcar hproc hpg
  subst hreq hget hstatic hlist hupd hcar
  simp only [reconcile, bne_self_eq_false, Bool.false_eq_true, if_false, hdel, Bool.not_true,
    Bool.not_false, if_true, hproc, hpg]
  rw [if_pos hrq]
  rfl

/-- The fully successful reconcile: same snapshot, reconcile result zero, and
the dynamic handle rebound to the newly granted access. -/
theorem reconcile_success_eq (s : StoreState) (env : ConfigReconcileEnv)
    (cfg : ProjectWorkspaceConfig) (sps : List ServiceProvider)
    (newRBWD : List DeletionBlockingResource) (newPermWS pg : List APIGroupsWithResources)
    (rr : ReconcileResult) (handle : Nat)
    (hreq : env.reqName = env.providerName)
    (hget : env.getConfig = .found cfg)
    (hdel : cfg.deletionTimestampZero = true)
    (hstatic : env.staticAccessAvailable = true)
    (hlist : env.listServiceProviders = .ok sps)
    (hproc : processServiceProviders env.discover sps (blockingFromConfigWorkspace cfg, []) =
      .ok (newRBWD, newPermWS))
    (hpg : computePermissionGroups env.discover
      (blockingFromConfigProject cfg ++ newRBWD) [] = .ok pg)
    (hupd : env.carUpdateErr = none)
    (hcar : env.carReconcile = (rr, none))
    (hrq : rr.requeueAfter = 0)
    (hacc : env.carAccess = .ok handle) :
    reconcile s env =
      ({ snapshotState s cfg newRBWD newPermWS with
          onboardingClusterAccessDynamic := some handle }, {}, none) := by
  obtain ⟨rq, pn, gc, sa, ls, disc, crd, cu, cr, ca⟩ := env
  simp only at hreq hget hstatic hlist hupd hcar hproc hpg hacc
  subst hreq hget hstatic hlist hupd hcar hacc
  simp only [reconcile, bne_self_eq_false, Bool.false_eq_true, if_false, hdel, Bool.not_true,
    Bool.not_false, if_true, hproc, hpg, hrq]
  rfl

-- Concrete inputs for the config reconcile theorems.

/-- A GVK a configuration may declare as blocking. -/
def gvkDummy : GroupVersionKind := { group := "example.org", version := "v1", kind := "Dummy" }

/-- A configuration whose project section blocks one GVK. -/
def cfgWithBlocking : ProjectWorkspaceConfig :=
  { deletionTimestampZero := true
    projectResourcesBlockingDeletion := [gvkDummy]
    projectAdditionalPermissions := []
    workspaceResourcesBlockingDeletion := []
    workspaceAdditionalPermissions := []
    memberOverridesName := ""
    webhookDisabled := false }

/-- An environment in which everything succeeds except that the access
reconciler reports the grant as not yet ready (requeue after 30). -/
def envGrantNotReady : ConfigReconcileEnv :=
  { reqName := "project-workspace-operator"
    providerName := "project-workspace-operator"
    getConfig := .found cfgWithBlocking
    staticAccessAvailable := true
    listServiceProviders := .ok []
    discover := fun _ => .ok "dummies"
    carReconcileDelete := ({}, none)
    carUpdateErr := none
    carReconcile := ({ requeue := false, requeueAfter := 30 }, none)
    carAccess := .error "not ready" }

/-- C2 counterexample: the claim says a grant-not-ready reconcile leaves the
published snapshot unchanged; in the code the snapshot is installed before
the grant is submitted, so after the requeueing reconcile the blocking list
already holds the configuration's new entry. -/
theorem c2_counterexample_snapshot_updated_before_requeue :
    (reconcile emptyStore envGrantNotReady).2.1.requeueAfter = 30 ∧
    (reconcile emptyStore envGrantNotReady).2.2 = none ∧
    (reconcile emptyStore envGrantNotReady).1.resourcesBlockingProjectDeletion ≠
      emptyStore.resourcesBlockingProjectDeletion := by
  refine ⟨by rfl, by rfl, by decide⟩

/-- C2 amended: when the access reconciler reports the grant as not yet
ready, reconcile returns its advertised requeue interval with no error; the
published snapshot at that point is the complete new snapshot (installed
atomically before the grant submission), and only the dynamic cluster handle
is left at its previous value. -/
theorem c2_requeue_returns_new_snapshot (s : StoreState) (env : ConfigReconcileEnv)
    (cfg : ProjectWorkspaceConfig) (sps : List ServiceProvider)
    (newRBWD : List DeletionBlockingResource) (newPermWS pg : List APIGroupsWithResources)
    (rr : ReconcileResult)
    (hreq : env.reqName = env.providerName)
    (hget : env.getConfig = .found cfg)
    (hdel : cfg.deletionTimestampZero = true)
    (hstatic : env.staticAccessAvailable = true)
    (hlist : env.listServiceProviders = .ok sps)
    (hproc : processServiceProviders env.discover sps (blockingFromConfigWorkspace cfg, []) =
      .ok (newRBWD, newPermWS))
    (hpg : computePermissionGroups env.discover
      (blockingFromConfigProject cfg ++ newRBWD) [] = .ok pg)
    (hupd : env.carUpdateErr = none)
    (hcar : env.carReconcile = (rr, none))
    (hrq : 0 < rr.requeueAfter) :
    reconcile s env = (snapshotState s cfg newRBWD newPermWS, rr, none) ∧
    (reconcile s env).1.onboardingClusterAccessDynamic = s.onboardingClusterAccessDynamic :=
  ⟨reconcile_requeue_eq s env cfg sps newRBWD newPermWS pg rr
      hreq hget hdel hstatic hlist hproc hpg hupd hcar hrq,
    by
      rw [reconcile_requeue_eq s env cfg sps newRBWD newPermWS pg rr
        hreq hget hdel hstatic hlist hproc hpg hupd hcar hrq]
      rfl⟩

/-- C2 amended witness: the concrete grant-not-ready reconcile returns the
30-unit requeue with the new snapshot installed and the handle unchanged. -/
theorem c2_requeue_returns_new_snapshot_witness :
    reconcile emptyStore envGrantNotReady =
      (snapshotState emptyStore cfgWithBlocking [] [],
        { requeue := false, requeueAfter := 30 }, none) ∧
    (reconcile emptyStore envGrantNotReady).1.onboardingClusterAccessDynamic =
      emptyStore.onboardingClusterAccessDynamic :=
  c2_requeue_returns_new_snapshot emptyStore envGrantNotReady cfgWithBlocking [] [] []
    [{ apiGroups := ["example.org"], resources := ["dummies", "dummies/status"] }]
    { requeue := false, requeueAfter := 30 }
    rfl rfl rfl rfl rfl rfl rfl rfl rfl (by decide)

/-- C7: after a successful config reconcile, for each of the two roles the
permission readers return one rule per permissible resource grouping — verbs
[*] for admin and [get,list,watch] for view — followed by exactly the extra
rules the configuration object binds to that role, their verbs passed through
verbatim (they are not rewritten by role, not even for view). The project
side's groupings are the builtins (provider advertisements are deliberately
not wired into projects); the workspace side adds the provider groupings. -/
theorem c7_role_expansion_extras_verbatim (s : StoreState) (env : ConfigReconcileEnv)
    (cfg : ProjectWorkspaceConfig) (sps : List ServiceProvider)
    (newRBWD : List DeletionBlockingResource) (newPermWS pg : List APIGroupsWithResources)
    (rr : ReconcileResult) (handle : Nat)
    (hreq : env.reqName = env.providerName)
    (hget : env.getConfig = .found cfg)
    (hdel : cfg.deletionTimestampZero = true)
    (hstatic : env.staticAccessAvailable = true)
    (hlist : env.listServiceProviders = .ok sps)
    (hproc : processServiceProviders env.discover sps (blockingFromConfigWorkspace cfg, []) =
      .ok (newRBWD, newPermWS))
    (hpg : computePermissionGroups env.discover
      (blockingFromConfigProject cfg ++ newRBWD) [] = .ok pg)
    (hupd : env.carUpdateErr = none)
    (hcar : env.carReconcile = (rr, none))
    (hrq : rr.requeueAfter = 0)
    (hacc : env.carAccess = .ok handle) :
    ProjectPermissionsForRole (reconcile s env).1 AdminRole =
      .ok (BuiltinPermissibleProjectResources.map (ruleForGrouping ["*"]) ++
        rulesFromConfig (translateProjectAdditionalPermissions cfg.projectAdditionalPermissions)
          AdminRole) ∧
    ProjectPermissionsForRole (reconcile s env).1 ViewerRole =
      .ok (BuiltinPermissibleProjectResources.map (ruleForGrouping ["get", "list", "watch"]) ++
        rulesFromConfig (translateProjectAdditionalPermissions cfg.projectAdditionalPermissions)
          ViewerRole) ∧
    WorkspacePermissionsForRole (reconcile s env).1 AdminRole =
      .ok ((BuiltinPermissibleWorkspaceResources ++ newPermWS).map (ruleForGrouping ["*"]) ++
        rulesFromConfig (translateWorkspaceAdditionalPermissions cfg.workspaceAdditionalPermissions)
          AdminRole) ∧
    WorkspacePermissionsForRole (reconcile s env).1 ViewerRole =
      .ok ((BuiltinPermissibleWorkspaceResources ++ newPermWS).map
            (ruleForGrouping ["get", "list", "watch"]) ++
        rulesFromConfig (translateWorkspaceAdditionalPermissions cfg.workspaceAdditionalPermissions)
          ViewerRole) := by
  rw [reconcile_success_eq s env cfg sps newRBWD newPermWS pg rr handle
    hreq hget hdel hstatic hlist hproc hpg hupd hcar hrq hacc]
  exact ⟨rfl, rfl, rfl, rfl⟩

/-- An extra rule the configuration binds to the view role; its verbs are
not the view verbs. -/
def extraViewRule : PolicyRule :=
  { apiGroups := ["mygroup.project"]
    resources := ["myprojectadditionalresources1"]
    resourceNames := []
    nonResourceURLs := []
    verbs := ["get", "update"] }

/-- A configuration binding extraViewRule to the project view role. -/
def cfgWithExtras : ProjectWorkspaceConfig :=
  { deletionTimestampZero := true
    projectResourcesBlockingDeletion := []
    projectAdditionalPermissions := [("view", [extraViewRule])]
    workspaceResourcesBlockingDeletion := []
    workspaceAdditionalPermissions := []
    memberOverridesName := ""
    webhookDisabled := false }

/-- An environment in which the reconcile of cfgWithExtras fully succeeds. -/
def envFullSuccess : ConfigReconcileEnv :=
  { reqName := "project-workspace-operator"
    providerName := "project-workspace-operator"
    getConfig := .found cfgWithExtras
    staticAccessAvailable := true
    listServiceProviders := .ok []
    discover := fun _ => .ok "dummies"
    carReconcileDelete := ({}, none)
    carUpdateErr := none
    carReconcile := ({}, none)
    carAccess := .ok 7 }

/-- C7 witness: after reconciling cfgWithExtras the view expansion is the
builtin view rule followed by the extra rule with its verbs [get, update]
kept verbatim. -/
theorem c7_role_expansion_extras_verbatim_witness :
    ProjectPermissionsForRole (reconcile emptyStore envFullSuccess).1 ViewerRole =
      .ok (BuiltinPermissibleProjectResources.map (ruleForGrouping ["get", "list", "watch"]) ++
        [extraViewRule]) := by
  have h := c7_role_expansion_extras_verbatim emptyStore envFullSuccess cfgWithExtras [] [] [] []
    {} 7 rfl rfl rfl rfl rfl rfl rfl rfl rfl rfl rfl
  rw [h.2.1]
  rfl

-- CommonReconciler deletion helpers (internal/controller/core/common.go) --

/-- RemainingContentResource: one entry of the ContentRemaining details list;
apiGroup carries the listed object's apiVersion value, as in the source. -/
structure RemainingContentResource where
  apiGroup : String
  kind : String
  name : String
  ns : String
deriving Repr, DecidableEq

/-- A status condition. details models the content of the marshalled JSON
details document (json.Marshal of the RemainingContentResource list, whose
marshalling cannot fail on this data). -/
structure Condition where
  type : String
  status : String
  lastTransitionTime : Nat
  reason : String
  message : String
  details : List RemainingContentResource
deriving Repr, DecidableEq

/-- An unstructured object returned by a List call against the onboarding
cluster. -/
structure UnstructuredObj where
  apiVersion : String
  kind : String
  name : String
  ns : String
deriving Repr, DecidableEq

/-- A tenancy object (Project or Workspace) as the CommonReconciler reads it:
deletion timestamp, finalizer list, status.namespace and conditions. -/
structure TenancyObject where
  isProject : Bool
  deletionTimestamp : Option Nat
  finalizers : List String
  statusNamespace : String
  conditions : List Condition
deriving Repr, DecidableEq

/-- deleteFinalizer = GroupVersion.Group. -/
def deleteFinalizer : String := "core.openmcp.cloud"

/-- wasDeleted: the deletion timestamp is set. -/
def wasDeleted (o : TenancyObject) : Bool :=
  o.deletionTimestamp.isSome

/-- SetOrUpdateCondition: replace the first condition with the same type,
keeping its lastTransitionTime when the status did not change; append with
the current time when no condition of that type exists. -/
def SetOrUpdateCondition (now : Nat) (conds : List Condition) (c : Condition) : List Condition :=
  match conds with
  | [] => [{ c with lastTransitionTime := now }]
  | e :: rest =>
      if e.type == c.type then
        (if e.status == c.status then { c with lastTransitionTime := e.lastTransitionTime }
         else { c with lastTransitionTime := now }) :: rest
      else
        e :: SetOrUpdateCondition now rest c

/-- RemoveCondition: drop every condition of the given type. -/
def RemoveCondition (conds : List Condition) (t : String) : List Condition :=
  conds.filter (fun c => c.type != t)

/-- Oracle bundle for handleRemainingContentBeforeDelete: the shared store,
availability of the dynamic cluster handle, the List capability of that
handle, and the current time used for condition transitions. -/
structure ContentEnv where
  store : StoreState
  dynAccessAvailable : Bool
  listInNamespace : GroupVersionKind → String → Except String (List UnstructuredObj)
  now : Nat

/-- The loop listing every blocking GVK in the tenant namespace and
collecting all found instances, failing on the first List error. -/
def collectRemaining (listFn : GroupVersionKind → String → Except String (List UnstructuredObj))
    (blocking : List DeletionBlockingResource) (ns : String) :
    Except String (List UnstructuredObj) :=
  match blocking with
  | [] => .ok []
  | br :: rest =>
      match listFn br.gvk ns with
      | .error e => .error e
      | .ok items =>
          match collectRemaining listFn rest ns with
          | .error e => .error e
          | .ok more => .ok (items ++ more)

/-- The details entry built from a listed object. -/
def toRemainingContentResource (res : UnstructuredObj) : RemainingContentResource :=
  { apiGroup := res.apiVersion, kind := res.kind, name := res.name, ns := res.ns }

/-- The ContentRemaining condition built for a nonempty remainder. -/
def contentRemainingCondition (ns : String) (remaining : List UnstructuredObj) : Condition :=
  { type := "ContentRemaining"
    status := "True"
    lastTransitionTime := 0
    reason := "SomeResourcesRemain"
    message := "There are " ++ toString remaining.length ++ " remaining resources in namespace " ++
      ns ++ " that are preventing deletion"
    details := remaining.map toRemainingContentResource }

/-- CommonReconciler.handleRemainingContentBeforeDelete: nothing to do
outside deletion; fetch the blocking list for the tenancy kind; list every
blocking GVK in the tenant namespace via the dynamic handle; on a nonempty
remainder set the ContentRemaining condition and report blocked (true),
otherwise remove the condition and report clear (false). -/
def handleRemainingContentBeforeDelete (env : ContentEnv) (o : TenancyObject) :
    Except String (Bool × TenancyObject) :=
  if !wasDeleted o then .ok (false, o)
  else
    match (if o.isProject then ResourcesBlockingProjectDeletion env.store
           else ResourcesBlockingWorkspaceDeletion env.store) with
    | .error e =>
        .error ((if o.isProject then "failed to get resources blocking project deletion: "
                 else "failed to get resources blocking workspace deletion: ") ++ e)
    | .ok blocking =>
      if blocking.isEmpty then .ok (false, o)
      else if !env.dynAccessAvailable then .error "failed to get onboarding cluster access"
      else
        match collectRemaining env.listInNamespace blocking o.statusNamespace with
        | .error e => .error e
        | .ok remaining =>
          if remaining.length > 0 then
            let cond := contentRemainingCondition o.statusNamespace remaining
            .ok (true, { o with conditions := SetOrUpdateCondition env.now o.conditions cond })
          else
            .ok (false, { o with conditions := RemoveCondition o.conditions "ContentRemaining" })

/-- The outcome of the cleanup function passed to handleDelete. -/
inductive CleanupResult where
  | cleanOk
  | resourcesRemaining (rr : ReconcileResult)
  | failed (msg : String)
deriving Repr, DecidableEq

/-- The (bool, ctrl.Result, error) triple of handleDelete together with the
in-memory object it leaves behind. -/
structure HandleDeleteOutcome where
  deleting : Bool
  result : ReconcileResult
  err : Option String
  obj : TenancyObject
deriving Repr, DecidableEq

/-- CommonReconciler.handleDelete: "not deleting" without a deletion
timestamp; with the finalizer present the cleanup runs — a
ResourcesRemainingError becomes a requeue with exactly its carried result
and no error, any other error is fatal, and a clean return removes the
finalizer (persisted via the static handle, whose Update outcome is the
updateOk oracle). -/
def handleDelete (staticAvailable updateOk : Bool) (o : TenancyObject)
    (cleanup : CleanupResult) : HandleDeleteOutcome :=
  if !wasDeleted o then
    { deleting := false, result := {}, err := none, obj := o }
  else if !staticAvailable then
    { deleting := false, result := {}
      err := some "failed to get onboarding cluster access", obj := o }
  else if o.finalizers.contains deleteFinalizer then
    match cleanup with
    | .resourcesRemaining rr => { deleting := true, result := rr, err := none, obj := o }
    | .failed msg =>
        { deleting := false, result := {}
          err := some ("failed to perform cleanup operation: " ++ msg), obj := o }
    | .cleanOk =>
        let o2 := { o with finalizers := o.finalizers.filter (fun f => f != deleteFinalizer) }
        if updateOk then { deleting := true, result := {}, err := none, obj := o2 }
        else { deleting := false, result := {}, err := some "failed to remove finalizer", obj := o2 }
  else
    { deleting := true, result := {}, err := none, obj := o }

/-- The upserted condition is present afterwards, with every field of the
new condition except possibly lastTransitionTime. -/
theorem setOrUpdateCondition_mem (now : Nat) (conds : List Condition) (c : Condition) :
    ∃ t, { c with lastTransitionTime := t } ∈ SetOrUpdateCondition now conds c := by
  induction conds with
  | nil => exact ⟨now, by simp [SetOrUpdateCondition]⟩
  | cons e rest ih =>
      unfold SetOrUpdateCondition
      by_cases h : (e.type == c.type) = true
      · rw [if_pos h]
        by_cases hs : (e.status == c.status) = true
        · rw [if_pos hs]
          exact ⟨e.lastTransitionTime, List.mem_cons_self _ _⟩
        · rw [if_neg hs]
          exact ⟨now, List.mem_cons_self _ _⟩
      · rw [if_neg h]
        obtain ⟨t, ht⟩ := ih
        exact ⟨t, List.mem_cons_of_mem _ ht⟩

/-- After RemoveCondition no condition of the removed type remains. -/
theorem removeCondition_not_mem (conds : List Condition) (t : String) :
    ∀ c ∈ RemoveCondition conds t, c.type ≠ t := by
  intro c hc
  unfold RemoveCondition at hc
  rw [List.mem_filter] at hc
  simpa [bne_iff_ne] using hc.2

/-- With the configuration present, the blocking-list reader of either
tenancy kind answers the builtin entry followed by the runtime additions. -/
theorem blockingForKind_eq (s : StoreState) (h : s.missingConfig = false) (isProject : Bool) :
    (if isProject then ResourcesBlockingProjectDeletion s
     else ResourcesBlockingWorkspaceDeletion s) =
      .ok (if isProject then
          BuiltinResourcesBlockingProjectDeletion ++ s.resourcesBlockingProjectDeletion
        else
          BuiltinResourcesBlockingWorkspaceDeletion ++ s.resourcesBlockingWorkspaceDeletion) := by
  cases isProject <;>
    simp [ResourcesBlockingProjectDeletion, ResourcesBlockingWorkspaceDeletion, h]

/-- C5: for a tenancy object in deletion, with the configuration present,
the dynamic handle available and every List call succeeding,
handleRemainingContentBeforeDelete reports blocked (true) and leaves a
ContentRemaining condition of status True whose details enumerate
(apiVersion, kind, namespace, name) of every remaining object exactly when
listing the blocking GVKs in the tenant namespace found at least one
instance; with no instance it reports clear (false) and the ContentRemaining
condition is removed. -/
theorem c5_content_remaining_iff_instances (env : ContentEnv) (o : TenancyObject)
    (remaining : List UnstructuredObj)
    (hdel : wasDeleted o = true)
    (hstore : env.store.missingConfig = false)
    (hdyn : env.dynAccessAvailable = true)
    (hcoll : collectRemaining env.listInNamespace
      (if o.isProject then
          BuiltinResourcesBlockingProjectDeletion ++ env.store.resourcesBlockingProjectDeletion
        else
          BuiltinResourcesBlockingWorkspaceDeletion ++ env.store.resourcesBlockingWorkspaceDeletion)
      o.statusNamespace = .ok remaining) :
    (remaining ≠ [] →
      ∃ o2, handleRemainingContentBeforeDelete env o = .ok (true, o2) ∧
        ∃ c ∈ o2.conditions, c.type = "ContentRemaining" ∧ c.status = "True" ∧
          c.details = remaining.map toRemainingContentResource) ∧
    (remaining = [] →
      handleRemainingContentBeforeDelete env o =
        .ok (false, { o with conditions := RemoveCondition o.conditions "ContentRemaining" }) ∧
      ∀ c ∈ RemoveCondition o.conditions "ContentRemaining", c.type ≠ "ContentRemaining") := by
  have hmain : handleRemainingContentBeforeDelete env o =
      (if remaining.length > 0 then
        .ok (true, { o with conditions := SetOrUpdateCondition env.now o.conditions (contentRemainingCondition o.statusNamespace remaining) })
      else
        .ok (false, { o with conditions := RemoveCondition o.conditions "ContentRemaining" })) := by
    unfold handleRemainingContentBeforeDelete
    rw [hdel, blockingForKind_eq env.store hstore o.isProject]
    have hne : (if o.isProject then
        BuiltinResourcesBlockingProjectDeletion ++ env.store.resourcesBlockingProjectDeletion
      else
        BuiltinResourcesBlockingWorkspaceDeletion ++
          env.store.resourcesBlockingWorkspaceDeletion).isEmpty = false := by
      cases o.isProject <;>
        simp [BuiltinResourcesBlockingProjectDeletion, BuiltinResourcesBlockingWorkspaceDeletion]
    simp only [Bool.not_true, Bool.false_eq_true, if_false, hne, hdyn, hcoll]
  constructor
  · intro hne
    have hlen : remaining.length > 0 := List.length_pos.mpr hne
    rw [hmain, if_pos hlen]
    refine ⟨_, rfl, ?_⟩
    obtain ⟨t, ht⟩ := setOrUpdateCondition_mem env.now o.conditions
      (contentRemainingCondition o.statusNamespace remaining)
    exact ⟨_, ht, rfl, rfl, rfl⟩
  · intro hnil
    subst hnil
    rw [hmain]
    exact ⟨rfl, removeCondition_not_mem o.conditions "ContentRemaining"⟩

/-- A secret found in the workspace namespace. -/
def secretObj : UnstructuredObj :=
  { apiVersion := "v1", kind := "Secret", name := "s1", ns := "project-demo--ws-w1" }

/-- An environment whose List calls find that secret. -/
def contentEnvWithSecret : ContentEnv :=
  { store := emptyStore
    dynAccessAvailable := true
    listInNamespace := fun _ _ => .ok [secretObj]
    now := 42 }

/-- A workspace in deletion with the finalizer. -/
def wsDeleting : TenancyObject :=
  { isProject := false
    deletionTimestamp := some 10
    finalizers := [deleteFinalizer]
    statusNamespace := "project-demo--ws-w1"
    conditions := [] }

/-- C5 witness: deleting the workspace while the secret lives in its
namespace reports blocked with a ContentRemaining/True condition listing the
secret. -/
theorem c5_content_remaining_iff_instances_witness :
    ∃ o2, handleRemainingContentBeforeDelete contentEnvWithSecret wsDeleting = .ok (true, o2) ∧
      ∃ c ∈ o2.conditions, c.type = "ContentRemaining" ∧ c.status = "True" ∧
        c.details = [toRemainingContentResource secretObj] := by
  have h := c5_content_remaining_iff_instances contentEnvWithSecret wsDeleting [secretObj]
    rfl rfl rfl rfl
  exact h.1 (by decide)

/-- C6: handleDelete — without a deletion timestamp it reports "not
deleting" and is independent of the cleanup outcome; in deletion with the
finalizer present, a ResourcesRemaining outcome turns into a requeue with
exactly the carried result and no error, any other cleanup error is fatal
for the cycle (error set, no requeue), and a clean cleanup leaves the object
without the deletion finalizer. -/
theorem c6_handle_delete_contract (sa up : Bool) (o : TenancyObject)
    (cu cu2 : CleanupResult) (rr : ReconcileResult) (msg : String) :
    (o.deletionTimestamp = none →
      handleDelete sa up o cu = handleDelete sa up o cu2 ∧
      (handleDelete sa up o cu).deleting = false ∧
      (handleDelete sa up o cu).err = none ∧
      (handleDelete sa up o cu).obj = o) ∧
    (wasDeleted o = true → sa = true → o.finalizers.contains deleteFinalizer = true →
      handleDelete sa up o (.resourcesRemaining rr) =
        { deleting := true, result := rr, err := none, obj := o } ∧
      ((handleDelete sa up o (.failed msg)).err.isSome = true ∧
        (handleDelete sa up o (.failed msg)).result = {} ∧
        (handleDelete sa up o (.failed msg)).deleting = false) ∧
      (handleDelete sa up o .cleanOk).obj.finalizers.contains deleteFinalizer = false) := by
  constructor
  · intro hts
    have hwd : wasDeleted o = false := by
      unfold wasDeleted
      rw [hts]
      rfl
    unfold handleDelete
    rw [hwd]
    exact ⟨rfl, rfl, rfl, rfl⟩
  · intro hwd hsa hfin
    subst hsa
    unfold handleDelete
    rw [hwd, hfin]
    refine ⟨rfl, ⟨rfl, rfl, rfl⟩, ?_⟩
    simp only
    have hmem : deleteFinalizer ∉ o.finalizers.filter (fun f => f != deleteFinalizer) := by
      intro hmem
      rw [List.mem_filter] at hmem
      simp [bne_iff_ne] at hmem
    cases up <;> simp [hmem]

/-- A project in deletion carrying the finalizer. -/
def projDeleting : TenancyObject :=
  { isProject := true
    deletionTimestamp := some 5
    finalizers := [deleteFinalizer]
    statusNamespace := "project-demo"
    conditions := [] }

/-- C6 witness: ResourcesRemaining requeues with the carried 3-second result,
and a clean cleanup strips the finalizer. -/
theorem c6_handle_delete_contract_witness :
    handleDelete true true projDeleting (.resourcesRemaining { requeue := false, requeueAfter := 3 }) =
      { deleting := true, result := { requeue := false, requeueAfter := 3 }, err := none
        obj := projDeleting } ∧
    (handleDelete true true projDeleting .cleanOk).obj.finalizers.contains deleteFinalizer = false := by
  have h := c6_handle_delete_contract true true projDeleting .cleanOk .cleanOk
    { requeue := false, requeueAfter := 3 } "boom"
  have h2 := h.2 (by decide) rfl (by decide)
  exact ⟨h2.1, h2.2.2⟩

end PWO
